import Mathlib

/-!
Verification of the `genome_scipy_app` Flask application skeleton
(`src/app/app.py`, `src/app/api/health.py`, `src/app/frontend/controllers.py`)
against its natural-language specification.

The Python code is shallowly embedded: the mutable `app.config` dictionary
becomes an association list with replace-or-append update, Flask config
objects become ordered lists of key/value assignments, the process
environment becomes an explicit record, and the application object becomes
an explicit state record threaded through the `configure_*` steps of the
application factory.
-/

/-- A Flask configuration object: an ordered sequence of (uppercase)
attribute assignments, as consumed by `app.config.from_object`. -/
abbrev ConfigObj := List (String × String)

/-- The `app.config` mapping: an association list with unique keys,
modelling the Flask/Python config dictionary. -/
abbrev Settings := List (String × String)

/-- Dictionary read: value of the first (hence, keys being unique, the only)
binding of `key`. -/
def lookup : Settings → String → Option String
  | [], _ => none
  | (k, v) :: rest, key => if k = key then some v else lookup rest key

/-- Dictionary write: replace the binding of `k` in place if present,
otherwise append a new binding, as a Python dict assignment does. -/
def setKey : Settings → String → String → Settings
  | [], k, v => [(k, v)]
  | (k0, v0) :: rest, k, v =>
    if k0 = k then (k0, v) :: rest else (k0, v0) :: setKey rest k v

/-- The embedding of `app.config.from_object(cfg)`: each assignment of the
config object is written into the settings dictionary in order, each write
shallowly overwriting any earlier value for its key. -/
def from_object (cfg : ConfigObj) (s : Settings) : Settings :=
  cfg.foldl (fun acc kv => setKey acc kv.1 kv.2) s

/-- The value a config object itself leaves for a key: its last assignment
to that key, if any. -/
def lastAssign : ConfigObj → String → Option String
  | [], _ => none
  | (k, v) :: rest, key =>
    match lastAssign rest key with
    | some w => some w
    | none => if k = key then some v else none

/-- The process environment as seen by `configure_app`: the two environment
variables it consults, each possibly unset. -/
structure Env where
  appname_config : Option String
  application_mode : Option String

/-- The `config` module imported by `app.py` as `Config`. The file
`src/app/config.py` is absent from `src/`; nothing in the claims depends on
its contents, so it is kept abstract: a default config object and a
deployment-mode-keyed lookup of config objects, exactly the two names
(`Config.DefaultConfig`, `Config.get_config`) that `app.py` uses. -/
structure ConfigModule where
  DefaultConfig : ConfigObj
  get_config : String → ConfigObj

/-- The embedding of `configure_app(app, config)` restricted to its effect
on the settings mapping. `fs` maps a file path to the config assignments of
the Python file at that path (the `from_envvar` source); `env` is the
process environment. Mirrors `src/app/app.py` lines 45-62: defaults, then
the optional caller config, then the optional file named by
`APPNAME_CONFIG`, then the object selected by `APPLICATION_MODE` (default
value `DEVELOPMENT`). -/
def configure_app (cm : ConfigModule) (fs : String → ConfigObj) (env : Env)
    (s : Settings) (config : Option ConfigObj) : Settings :=
  let s := from_object cm.DefaultConfig s
  let s := match config with
    | some c => from_object c s
    | none => s
  let s := match env.appname_config with
    | some path => from_object (fs path) s
    | none => s
  let application_mode := env.application_mode.getD "DEVELOPMENT"
  from_object (cm.get_config application_mode) s

/-- Reading a settings key after a dictionary write sees the written value
at that key and is unchanged elsewhere. -/
theorem lookup_setKey (s : Settings) (k v key : String) :
    lookup (setKey s k v) key = if key = k then some v else lookup s key := by
  induction s with
  | nil =>
    by_cases h : key = k
    · simp [setKey, lookup, h]
    · simp [setKey, lookup, h, Ne.symm h]
  | cons hd tl ih =>
    obtain ⟨k0, v0⟩ := hd
    by_cases h0 : k0 = k
    · subst h0
      by_cases h : key = k0
      · simp [setKey, lookup, h]
      · simp [setKey, lookup, h, Ne.symm h]
    · by_cases h : key = k0
      · subst h
        simp [setKey, lookup, h0, Ne.symm h0]
      · simp [setKey, lookup, h0, ih, Ne.symm h]

/-- Reading a key after `from_object` sees the config object's last
assignment to that key when it has one, and the prior settings value
otherwise: later sources shallowly overwrite earlier ones, per key. -/
theorem lookup_from_object (cfg : ConfigObj) (s : Settings) (key : String) :
    lookup (from_object cfg s) key =
      match lastAssign cfg key with
      | some w => some w
      | none => lookup s key := by
  induction cfg generalizing s with
  | nil => simp [from_object, lastAssign]
  | cons hd tl ih =>
    obtain ⟨k, v⟩ := hd
    show lookup (from_object tl (setKey s k v)) key = _
    rw [ih]
    cases htl : lastAssign tl key with
    | some w => simp [lastAssign, htl]
    | none =>
      by_cases h : key = k
      · subst h
        simp [lastAssign, htl, lookup_setKey]
      · simp [lastAssign, htl, lookup_setKey, h, Ne.symm h]

/-- C1: `configure_app` applies exactly the four configuration sources, in
strict order — built-in defaults, the caller-supplied object when given,
the file named by `APPNAME_CONFIG` when that variable is set, and the
deployment-mode object selected by `APPLICATION_MODE` — each later source
shallowly overwriting earlier values per key; in particular a key assigned
by the deployment-mode object always ends up with that object's (last)
value for it, even when the default object also sets it. -/
theorem configure_app_four_sources_last_writer_wins
    (cm : ConfigModule) (fs : String → ConfigObj) (env : Env)
    (s : Settings) (config : Option ConfigObj) (k v : String)
    (h : lastAssign (cm.get_config (env.application_mode.getD "DEVELOPMENT")) k
      = some v) :
    configure_app cm fs env s config
      = List.foldl (fun acc cfg => from_object cfg acc) s
          ([cm.DefaultConfig] ++ config.toList ++ (env.appname_config.map fs).toList
            ++ [cm.get_config (env.application_mode.getD "DEVELOPMENT")])
    ∧ lookup (configure_app cm fs env s config) k = some v := by
  obtain ⟨ac, am⟩ := env
  constructor
  · cases config <;> cases ac <;> rfl
  · show lookup
      (from_object (cm.get_config ((Env.mk ac am).application_mode.getD "DEVELOPMENT")) _) k
      = some v
    rw [lookup_from_object, h]

/-- Closed instance of `configure_app_four_sources_last_writer_wins`:
a key set by both the default and the deployment-mode object ends with the
deployment-mode value. -/
theorem configure_app_four_sources_last_writer_wins_witness :
    lookup
      (configure_app ⟨[("KEY", "defval")], fun _ => [("KEY", "modeval")]⟩
        (fun _ => []) ⟨none, none⟩ [] none) "KEY" = some "modeval" :=
  (configure_app_four_sources_last_writer_wins
    ⟨[("KEY", "defval")], fun _ => [("KEY", "modeval")]⟩
    (fun _ => []) ⟨none, none⟩ [] none "KEY" "modeval" (by decide)).2

/-- C2: a missing environment variable is never an error: `configure_app`
is a total function, and when `APPNAME_CONFIG` is unset it applies only the
remaining three sources (the file source is skipped entirely), while when
`APPLICATION_MODE` is unset the deployment-mode object is selected with the
value `DEVELOPMENT`. -/
theorem configure_app_missing_env_vars
    (cm : ConfigModule) (fs : String → ConfigObj) (s : Settings)
    (config : Option ConfigObj) (ac am : Option String) :
    configure_app cm fs ⟨none, am⟩ s config
      = List.foldl (fun acc cfg => from_object cfg acc) s
          ([cm.DefaultConfig] ++ config.toList
            ++ [cm.get_config (am.getD "DEVELOPMENT")])
    ∧ configure_app cm fs ⟨ac, none⟩ s config
      = List.foldl (fun acc cfg => from_object cfg acc) s
          ([cm.DefaultConfig] ++ config.toList ++ (ac.map fs).toList
            ++ [cm.get_config "DEVELOPMENT"]) := by
  refine ⟨?_, ?_⟩
  · cases config <;> rfl
  · cases config <;> cases ac <;> rfl

/-- The five werkzeug HTTP exception classes imported and registered by
`configure_error_handlers` in `src/app/app.py`. -/
inductive ExcClass
  | badRequest
  | notFound
  | unauthorized
  | forbidden
  | badGateway
deriving DecidableEq, BEq, Repr

/-- The HTTP status code carried by each werkzeug exception class
(`code` class attribute). -/
def classCode : ExcClass → Nat
  | .badRequest => 400
  | .notFound => 404
  | .unauthorized => 401
  | .forbidden => 403
  | .badGateway => 502

/-- The default description text of each werkzeug exception class
(`description` class attribute); stand-in texts for the library defaults,
whose exact wording no claim depends on. -/
def defaultDescription : ExcClass → String
  | .badRequest => "The browser or proxy sent a request that this server could not understand."
  | .notFound => "The requested URL was not found on the server."
  | .unauthorized => "The server could not verify that you are authorized to access the URL requested."
  | .forbidden => "You do not have the permission to access the requested resource."
  | .badGateway => "The proxy server received an invalid response from an upstream server."

/-- A raised werkzeug HTTP exception instance: its class plus the
description it carries (the class default unless the raiser supplied one);
its `code` attribute is the class code. -/
structure RaisedExc where
  cls : ExcClass
  description : String
deriving DecidableEq, Repr

/-- The `code` attribute of a raised werkzeug exception instance. -/
def RaisedExc.code (e : RaisedExc) : Nat := classCode e.cls

/-- The uniform JSON error envelope `\x7bmessage, code\x7d` of the spec. -/
structure Body where
  message : String
  code : Nat
deriving DecidableEq, Repr

/-- An HTTP response: a status code and a JSON envelope body. -/
structure Resp where
  status : Nat
  body : Body
deriving DecidableEq, Repr

namespace Response

/-- Modelled from the spec: `src/app/response.py` is imported by `app.py`
and `health.py` but absent from `src/`. Per spec sections 4.3 and 6, a
handled exception yields a JSON body of shape `\x7bmessage, code\x7d` with
the original HTTP status code preserved: `make_error_resp` builds that
envelope from a description and a status code. -/
def make_error_resp (description : String) (code : Nat) : Resp :=
  { status := code, body := { message := description, code := code } }

/-- Modelled from the spec: the success envelope returned by the health
endpoint — status 200 with the given message (spec section 6: JSON success
envelope, message OK). -/
def make_success_resp (msg : String) : Resp :=
  { status := 200, body := { message := msg, code := 200 } }

/-- Modelled from the spec: `make_exception_resp(exc_class, code)` maps the
error onto the given exception class's response — the same
`\x7bmessage, code\x7d` shape `make_error_resp` builds, with the class's
default description as message and the explicitly passed status code
(spec section 4.3: the bad-gateway case is deliberately mapped onto the
bad-request response; section 6: the original status code is preserved). -/
def make_exception_resp (exc : ExcClass) (code : Nat) : Resp :=
  make_error_resp (defaultDescription exc) code

end Response

/-- Handler registered for `BadGateway` (`src/app/app.py`): renders the
bad-request response shape while passing the original error's code. -/
def handle_bad_gateway (error : RaisedExc) : Resp :=
  Response.make_exception_resp .badRequest error.code

/-- Handler registered for `BadRequest`. -/
def handle_bad_request (error : RaisedExc) : Resp :=
  Response.make_error_resp error.description error.code

/-- Handler registered for `NotFound`. -/
def handle_not_found (error : RaisedExc) : Resp :=
  Response.make_error_resp error.description error.code

/-- Handler registered for `Unauthorized`. -/
def handle_unauthorized (error : RaisedExc) : Resp :=
  Response.make_error_resp error.description error.code

/-- Handler registered for `Forbidden`. -/
def handle_forbidden (error : RaisedExc) : Resp :=
  Response.make_error_resp error.description error.code

/-- The exception classes for which `configure_error_handlers` registers a
handler, in registration order (`src/app/app.py` lines 181-202). -/
def error_handler_table : List ExcClass :=
  [.badGateway, .badRequest, .notFound, .unauthorized, .forbidden]

/-- The handler function registered for each class in
`error_handler_table`. -/
def handlerFor : ExcClass → RaisedExc → Resp
  | .badGateway => handle_bad_gateway
  | .badRequest => handle_bad_request
  | .notFound => handle_not_found
  | .unauthorized => handle_unauthorized
  | .forbidden => handle_forbidden

/-- Framework dispatch of a raised HTTP exception to the registered
handler for its class, if any. -/
def handleException (e : RaisedExc) : Option Resp :=
  (error_handler_table.find? (fun c => c == e.cls)).map (fun c => handlerFor c e)

/-- C3: for each of the four handled client-error exception kinds — bad
request, not found, unauthorized, forbidden — raised with any description,
the registered handler produces a JSON response whose status equals the
exception's HTTP status code and whose envelope carries the exception's
description as `message` and that code as `code`. -/
theorem handled_exceptions_envelope (d : String) :
    handleException ⟨.badRequest, d⟩
      = some { status := 400, body := { message := d, code := 400 } }
    ∧ handleException ⟨.notFound, d⟩
      = some { status := 404, body := { message := d, code := 404 } }
    ∧ handleException ⟨.unauthorized, d⟩
      = some { status := 401, body := { message := d, code := 401 } }
    ∧ handleException ⟨.forbidden, d⟩
      = some { status := 403, body := { message := d, code := 403 } } :=
  ⟨rfl, rfl, rfl, rfl⟩

/-- C4: a raised bad-gateway exception is dispatched to a response with the
exact shape the bad-request handler produces (a `make_error_resp` envelope,
carrying the bad-request class's description), while its status code stays
the bad-gateway code 502, not bad request's 400. -/
theorem bad_gateway_keeps_status (d : String) :
    handleException ⟨.badGateway, d⟩
      = some (Response.make_error_resp (defaultDescription .badRequest) 502)
    ∧ (handleException ⟨.badGateway, d⟩).map Resp.status = some 502
    ∧ (handleException ⟨.badGateway, d⟩).map Resp.status ≠ some 400 :=
  ⟨rfl, rfl, by
    intro hc
    rw [show (handleException ⟨.badGateway, d⟩).map Resp.status = some 502 from rfl] at hc
    simp at hc⟩

/-- The two blueprints defined in this repository: `health`
(`src/app/api/health.py`) and `frontend`
(`src/app/frontend/controllers.py`). -/
inductive Blueprint
  | health
  | frontend
deriving DecidableEq, Repr

/-- `DEFAULT_BLUEPRINTS` from `src/app/app.py`. -/
def DEFAULT_BLUEPRINTS : List Blueprint := [.health, .frontend]

/-- The observable state of the Flask application object as the factory
builds it: identity and folders from the constructor, the settings mapping,
which extensions have been bound, registered CLI commands, and the
blueprints and error-handler classes in registration order. -/
structure App where
  name : String
  static_folder : String
  template_folder : String
  config : Settings
  dbBound : Bool
  mailBound : Bool
  cliCommands : List String
  blueprints : List Blueprint
  errorHandlers : List ExcClass
deriving DecidableEq, Repr

/-- Modelled from the spec: `FLASK_PROJECT_ROOT` comes from
`src/app/constants.py`, which is absent from `src/`; no claim depends on
its value, only on its use as the root of the static and template
folders. -/
def FLASK_PROJECT_ROOT : String := "/flask_project_root"

/-- `os.path.join` for the slash-free relative components used here. -/
def os_path_join (a b : String) : String := a ++ "/" ++ b

/-- The `Flask(app_name, static_folder=..., template_folder=...)`
constructor call of `create_app`: a fresh application object with no
configuration, no bound extensions, and no registrations. -/
def mkFlask (app_name : String) : App :=
  { name := app_name
    static_folder := os_path_join FLASK_PROJECT_ROOT "static"
    template_folder := os_path_join FLASK_PROJECT_ROOT "templates"
    config := []
    dbBound := false
    mailBound := false
    cliCommands := []
    blueprints := []
    errorHandlers := [] }

/-- A Python runtime error surfaced by the factory. -/
inductive PyError
  | attributeError (attr : String)
deriving DecidableEq, Repr

/-- Python attribute access `c.ATTR` on a config object: its last
assignment to the attribute, or an `AttributeError`. -/
def getAttr (c : ConfigObj) (attr : String) : Except PyError String :=
  match lastAssign c attr with
  | some v => .ok v
  | none => .error (.attributeError attr)

/-- The `app_name` resolution at the top of `create_app`
(`src/app/app.py` lines 26-28): when `app_name` is `None` it is read as
`config.APP_NAME` — an attribute access that raises `AttributeError` when
`config` is itself `None` (Python `None` has no `APP_NAME` attribute). -/
def resolve_app_name (config : Option ConfigObj) (app_name : Option String) :
    Except PyError String :=
  match app_name with
  | some n => .ok n
  | none =>
    match config with
    | some c => getAttr c "APP_NAME"
    | none => .error (.attributeError "APP_NAME")

/-- The embedding of `configure_app(app, config)` as a transformation of
the application object (its settings mapping; see `configure_app` for the
layering itself). -/
def configure_app_step (cm : ConfigModule) (fs : String → ConfigObj) (env : Env)
    (app : App) (config : Option ConfigObj) : App :=
  { app with config := configure_app cm fs env app.config config }

/-- The embedding of `configure_extensions(app)` (`src/app/app.py` lines
64-108): `db.init_app(app)` runs and the `initdb` CLI command is added,
but the `mail.init_app(app)` line is commented out in the source, so the
mail extension is never bound. -/
def configure_extensions (app : App) : App :=
  let app := { app with dbBound := true }
  { app with cliCommands := app.cliCommands ++ ["initdb"] }

/-- The embedding of `app.register_blueprint(blueprint)`. -/
def register_blueprint (app : App) (b : Blueprint) : App :=
  { app with blueprints := app.blueprints ++ [b] }

/-- The embedding of `configure_blueprints(app, blueprints)`: register
every blueprint of the list, unconditionally, in order. -/
def configure_blueprints (app : App) (blueprints : List Blueprint) : App :=
  blueprints.foldl register_blueprint app

/-- The embedding of `configure_hooks(app)`: a `pass` body. -/
def configure_hooks (app : App) : App := app

/-- The embedding of `configure_error_handlers(app)`: attach the five
`@app.errorhandler` registrations in source order. -/
def configure_error_handlers (app : App) : App :=
  { app with errorHandlers := app.errorHandlers ++ error_handler_table }

/-- The embedding of `create_app(config, app_name, blueprints)`
(`src/app/app.py` lines 20-43): resolve the application name (possibly
failing), default the blueprint list, construct the Flask object, then run
`configure_app`, `configure_extensions`, `configure_blueprints`,
`configure_hooks` and `configure_error_handlers` in that order
(`configure_logging` is commented out in the source). -/
def create_app (cm : ConfigModule) (fs : String → ConfigObj) (env : Env)
    (config : Option ConfigObj) (app_name : Option String)
    (blueprints : Option (List Blueprint)) : Except PyError App := do
  let name ← resolve_app_name config app_name
  let bps := blueprints.getD DEFAULT_BLUEPRINTS
  let app := mkFlask name
  let app := configure_app_step cm fs env app config
  let app := configure_extensions app
  let app := configure_blueprints app bps
  let app := configure_hooks app
  let app := configure_error_handlers app
  return app

/-- Registering a blueprint list appends it, in order, to the app's
registered blueprints and changes nothing else. -/
theorem configure_blueprints_eq (app : App) (bps : List Blueprint) :
    configure_blueprints app bps
      = { app with blueprints := app.blueprints ++ bps } := by
  induction bps generalizing app with
  | nil => simp [configure_blueprints]
  | cons b tl ih =>
    show configure_blueprints (register_blueprint app b) tl = _
    rw [ih]
    simp [register_blueprint]

/-- When `app_name` is supplied, `create_app` succeeds and the application
object it returns is fully determined: the named Flask object, the layered
configuration, the database (and only the database) extension bound, the
`initdb` CLI command, the requested (or default) blueprints, and the five
registered error-handler classes. -/
theorem create_app_ok (cm : ConfigModule) (fs : String → ConfigObj) (env : Env)
    (config : Option ConfigObj) (n : String) (bps : Option (List Blueprint)) :
    create_app cm fs env config (some n) bps
      = Except.ok
          { name := n
            static_folder := os_path_join FLASK_PROJECT_ROOT "static"
            template_folder := os_path_join FLASK_PROJECT_ROOT "templates"
            config := configure_app cm fs env [] config
            dbBound := true
            mailBound := false
            cliCommands := ["initdb"]
            blueprints := bps.getD DEFAULT_BLUEPRINTS
            errorHandlers := error_handler_table } := by
  show Except.ok (configure_error_handlers (configure_hooks (configure_blueprints
      (configure_extensions (configure_app_step cm fs env (mkFlask n) config))
      (bps.getD DEFAULT_BLUEPRINTS)))) = _
  rw [configure_blueprints_eq]
  rfl

/-- An arbitrary concrete config module for closed evaluations. -/
def cmEx : ConfigModule := ⟨[("APP_NAME", "app")], fun _ => []⟩

/-- An arbitrary concrete file system for closed evaluations. -/
def fsEx : String → ConfigObj := fun _ => []

/-- An environment with both consulted variables unset. -/
def envEx : Env := ⟨none, none⟩

/-- C5 is false on the code: after `create_app` returns, the mail extension
has not been bound — `mail.init_app(app)` is commented out in
`configure_extensions` — so db and mail are not both bound. -/
theorem configure_extensions_both_bound_cex :
    ¬ ((create_app cmEx fsEx envEx none (some "app") none).toOption.map
        (fun a => a.dbBound && a.mailBound) = some true) := by decide

/-- C5 amended: `configure_extensions` initializes only the database
extension; after `create_app` returns, the db extension is bound and the
mail extension is not (its initialization is commented out in the
source). -/
theorem configure_extensions_binds_db_only
    (cm : ConfigModule) (fs : String → ConfigObj) (env : Env)
    (config : Option ConfigObj) (n : String) (bps : Option (List Blueprint)) :
    (create_app cm fs env config (some n) bps).toOption.map
      (fun a => (a.dbBound, a.mailBound)) = some (true, false)
    ∧ ∀ app : App, (configure_extensions app).dbBound = true
        ∧ (configure_extensions app).mailBound = app.mailBound := by
  refine ⟨?_, fun app => ⟨rfl, rfl⟩⟩
  rw [create_app_ok]
  rfl

/-- C6 is false on the code: `create_app` registers five error handlers,
not four — the four client-error kinds plus the bad-gateway handler. -/
theorem create_app_four_handlers_cex :
    ¬ ((create_app cmEx fsEx envEx none (some "app") none).toOption.map
        (fun a => a.errorHandlers.length) = some 4) := by decide

/-- C6 amended: `create_app` performs its steps in the stated fixed order —
instantiate the application object, layer the configuration, initialize
extensions, register every blueprint of the given list (the default list
when none is supplied) via an unconditional loop, then register the error
handlers — and registers exactly five error handlers (the four
client-error kinds plus bad gateway), in source order. -/
theorem create_app_order_five_handlers
    (cm : ConfigModule) (fs : String → ConfigObj) (env : Env)
    (config : Option ConfigObj) (n : String) (bps : Option (List Blueprint)) :
    create_app cm fs env config (some n) bps
      = Except.ok (configure_error_handlers (configure_hooks (configure_blueprints
          (configure_extensions (configure_app_step cm fs env (mkFlask n) config))
          (bps.getD DEFAULT_BLUEPRINTS))))
    ∧ (create_app cm fs env config (some n) bps).toOption.map App.blueprints
        = some (bps.getD DEFAULT_BLUEPRINTS)
    ∧ (create_app cm fs env config (some n) bps).toOption.map App.errorHandlers
        = some [.badGateway, .badRequest, .notFound, .unauthorized, .forbidden]
    ∧ (create_app cm fs env config (some n) bps).toOption.map
        (fun a => a.errorHandlers.length) = some 5 := by
  refine ⟨rfl, ?_, ?_, ?_⟩ <;> rw [create_app_ok] <;> rfl

/-- C10: calling `create_app` with both `config` and `app_name` equal to
`None` fails with an `AttributeError` — the default app name is read as an
attribute of the absent config object — and no application object is ever
produced, whatever the environment, config module, or blueprint list. -/
theorem create_app_requires_config_or_name
    (cm : ConfigModule) (fs : String → ConfigObj) (env : Env)
    (bps : Option (List Blueprint)) :
    create_app cm fs env none none bps
      = Except.error (PyError.attributeError "APP_NAME")
    ∧ ∀ a : App, create_app cm fs env none none bps ≠ Except.ok a := by
  refine ⟨rfl, fun a h => ?_⟩
  rw [show create_app cm fs env none none bps
    = Except.error (PyError.attributeError "APP_NAME") from rfl] at h
  exact Except.noConfusion h

/-- The `/health` route handler `health_check`
(`src/app/api/health.py` lines 9-14). -/
def health_check : Resp := Response.make_success_resp "OK"

/-- C7: every invocation of GET `/health` returns status 200 with a JSON
success envelope whose message is `OK` (the handler is a constant, so this
holds for every request). -/
theorem health_check_always_ok :
    health_check.status = 200 ∧ health_check.body.message = "OK" :=
  ⟨rfl, rfl⟩

/-- The index in `l` of the last occurrence of `c`, if any
(Python `str.rfind` restricted to a present/absent answer). -/
def lastIndexOf (l : List Char) (c : Char) : Option Nat :=
  ((l.enum.filter (fun p => p.2 == c)).getLast?).map Prod.fst

/-- The embedding of `os.path.splitext` (CPython `genericpath._splitext`
with `sep` the slash and `extsep` the dot): split at the last dot of the
final path component, except that leading dots of that component never
begin an extension. -/
def splitext (p : String) : String × String :=
  let l := p.toList
  let sepIndex : Int := match lastIndexOf l (Char.ofNat 47) with
    | some i => (i : Int)
    | none => -1
  let dotIndex : Int := match lastIndexOf l (Char.ofNat 46) with
    | some i => (i : Int)
    | none => -1
  if sepIndex < dotIndex then
    let d := dotIndex.toNat
    let start := (sepIndex + 1).toNat
    if ((l.drop start).take (d - start)).any (fun ch => ch != Char.ofNat 46) then
      (String.mk (l.take d), String.mk (l.drop d))
    else (p, "")
  else (p, "")

/-- The embedding of Python `str.endswith`: the suffix's characters end
the string's characters. -/
def str_endswith (s suffix : String) : Bool :=
  suffix.toList.isSuffixOf s.toList

/-- The `/notebooks` route handler `notebook_index`
(`src/app/frontend/controllers.py` lines 9-21), as a function of the
directory listing of the `jupyter_notebooks` template directory: the list
of notebook names passed to the rendered page. -/
def notebook_index (jupyter_notebooks : List String) : List String :=
  let html_files := jupyter_notebooks.filter (fun i => str_endswith i ".html")
  let html_file_roots := html_files.map (fun i => (splitext i).1)
  html_file_roots

/-- Mapping after filtering fuses into a single conditional traversal. -/
theorem map_filter_eq_filterMap {α β : Type} (p : α → Bool) (g : α → β)
    (l : List α) :
    (l.filter p).map g
      = l.filterMap (fun a => if p a then some (g a) else none) := by
  induction l with
  | nil => rfl
  | cons hd tl ih =>
    by_cases h : p hd <;>
      simp [List.filter_cons, h, List.filterMap_cons, ih]

/-- C8: for every directory listing, GET `/notebooks` lists exactly the
`splitext` roots (base names with the last extension stripped) of the
files whose names end in `.html`, in directory-listing order — one
conditional pass over the listing — and a name appears in the page exactly
when some listed `.html` file has it as its root. -/
theorem notebook_index_lists_html_roots (files : List String) :
    notebook_index files
      = files.filterMap
          (fun f => if str_endswith f ".html" then some (splitext f).1 else none)
    ∧ ∀ x, x ∈ notebook_index files
        ↔ ∃ f ∈ files, str_endswith f ".html" ∧ x = (splitext f).1 := by
  constructor
  · exact map_filter_eq_filterMap _ _ files
  · intro x
    show x ∈ (files.filter _).map _ ↔ _
    simp only [List.mem_map, List.mem_filter]
    constructor
    · rintro ⟨f, ⟨hf, hp⟩, he⟩
      exact ⟨f, hf, hp, he.symm⟩
    · rintro ⟨f, hf, hp, he⟩
      exact ⟨f, ⟨hf, hp⟩, he.symm⟩

/-- A Jinja template-loading failure (the `TemplateNotFound` exception):
not a werkzeug HTTP exception, so distinct from every class in
`error_handler_table`. -/
inductive RenderError
  | templateNotFound (template : String)
deriving DecidableEq, Repr

/-- A rendered HTML page, identified by the template that produced it. -/
structure Page where
  template : String
deriving DecidableEq, Repr

/-- Model of Flask `render_template` over the list of template files that
exist: renders the named template when present, otherwise raises
`TemplateNotFound` for it. -/
def render_template (templates : List String) (t : String) :
    Except RenderError Page :=
  if t ∈ templates then .ok ⟨t⟩ else .error (.templateNotFound t)

/-- The `/notebooks/<notebook_name>` route handler `jupyter_notebook`
(`src/app/frontend/controllers.py` lines 23-25): render the template named
by the format string, with no validation or existence check first. -/
def jupyter_notebook (templates : List String) (notebook_name : String) :
    Except RenderError Page :=
  render_template templates ("jupyter_notebooks/" ++ notebook_name ++ ".html")

/-- An exception escaping a route handler: either a werkzeug HTTP
exception or a template-loading failure. -/
inductive Exc
  | http (e : RaisedExc)
  | render (e : RenderError)

/-- Whether a registered handler class matches an escaped exception: an
HTTP exception matches its own class; a template-loading failure matches
no werkzeug class. -/
def excMatches (c : ExcClass) : Exc → Bool
  | .http e => c == e.cls
  | .render _ => false

/-- Framework dispatch of an escaped exception against the registered
error-handler classes. -/
def dispatchExc (exc : Exc) : Option Resp :=
  match error_handler_table.find? (fun c => excMatches c exc), exc with
  | some c, .http e => some (handlerFor c e)
  | _, _ => none

/-- The outcome of a request as the framework reports it: a rendered page,
a response produced by a registered error handler, or an unhandled
exception (surfaced as the framework's internal-error path, not a clean
HTTP response from this application's handlers). -/
inductive Outcome
  | page (p : Page)
  | handled (r : Resp)
  | unhandled (e : RenderError)
deriving DecidableEq, Repr

/-- GET `/notebooks/<notebook_name>` end to end: run the route handler,
and if it raises, offer the exception to the registered error
handlers. -/
def serve_notebook (templates : List String) (notebook_name : String) :
    Outcome :=
  match jupyter_notebook templates notebook_name with
  | .ok p => .page p
  | .error e =>
    match dispatchExc (.render e) with
    | some r => .handled r
    | none => .unhandled e

/-- C9: for every `<notebook_name>`, the route attempts to render exactly
the template `jupyter_notebooks/<notebook_name>.html`, with no validation
of the name; when that template does not exist the request ends as an
unhandled `TemplateNotFound` failure — no registered error handler
produces a response, so no clean 404 (or any other handled response) is
returned. -/
theorem jupyter_notebook_no_validation
    (templates : List String) (notebook_name : String)
    (h : ("jupyter_notebooks/" ++ notebook_name ++ ".html") ∉ templates) :
    jupyter_notebook templates notebook_name
      = render_template templates
          ("jupyter_notebooks/" ++ notebook_name ++ ".html")
    ∧ serve_notebook templates notebook_name
      = Outcome.unhandled
          (RenderError.templateNotFound
            ("jupyter_notebooks/" ++ notebook_name ++ ".html"))
    ∧ ∀ r : Resp, serve_notebook templates notebook_name
        ≠ Outcome.handled r := by
  have hserve : serve_notebook templates notebook_name
      = Outcome.unhandled
          (RenderError.templateNotFound
            ("jupyter_notebooks/" ++ notebook_name ++ ".html")) := by
    simp [serve_notebook, jupyter_notebook, render_template, h, dispatchExc,
      excMatches, error_handler_table]
  refine ⟨rfl, hserve, fun r hr => ?_⟩
  rw [hserve] at hr
  exact Outcome.noConfusion hr

/-- Closed instance of `jupyter_notebook_no_validation`: with no templates
on disk, requesting `/notebooks/missing` ends as an unhandled
`TemplateNotFound` failure. -/
theorem jupyter_notebook_no_validation_witness :
    ("jupyter_notebooks/" ++ "missing" ++ ".html") ∉ ([] : List String)
    ∧ serve_notebook [] "missing"
        = Outcome.unhandled
            (RenderError.templateNotFound
              ("jupyter_notebooks/" ++ "missing" ++ ".html")) :=
  ⟨by decide, (jupyter_notebook_no_validation [] "missing" (by decide)).2.1⟩
